import Mathlib

/-!
Shallow embedding of `fedml_experiments/centralized/fed_transformer`:
`main_vit_fine_tune.py` (centralized ViT fine-tuning driver) and `test.py`
(smoke-test script).  The driver's externally observable behaviour is modelled
as a trace of events: environment-variable writes, calls into the
`torch.distributed` framework, wandb tracker calls, dataset/model construction,
weight loading, and the train/eval epoch loop.  The pure arithmetic of
`_infer`/`eval` (accuracy and loss accounting) is modelled as functions over
rationals.  Diagnostic `logging`/`print` calls with no claim-relevant content,
RNG seeding, and device selection are not recorded in the trace.
-/

/-- The parsed command-line configuration (`argparse` block, lines 230-273 of
`main_vit_fine_tune.py`).  Integer-typed flags are modelled as `ℤ`,
float-typed flags as `ℚ`, string flags as `String`. -/
structure Args where
  local_rank : ℤ
  global_rank : ℤ
  model : String
  dataset : String
  data_dir : String
  batch_size : ℤ
  client_optimizer : String
  decay_type : String
  lr : ℚ
  wd : ℚ
  warmup_steps : ℤ
  epochs : ℤ
  img_size : ℤ
  pretrained_dir : String
  is_distributed : ℤ
  deriving DecidableEq, Repr

/-- The `argparse` default values of every flag. -/
def defaultArgs : Args where
  local_rank := 0
  global_rank := 0
  model := "transformer"
  dataset := "cifar10"
  data_dir := "./../../../data/cifar10"
  batch_size := 2
  client_optimizer := "sgd"
  decay_type := "cosine"
  lr := 3 / 100
  wd := 0
  warmup_steps := 2
  epochs := 20
  img_size := 224
  pretrained_dir := "./../../../fedml_api/model/cv/pretrained/Transformer/vit/ViT-B_16.npz"
  is_distributed := 0

/-- The process environment as read by `init_ddp`: the `RANK` and
`WORLD_SIZE` environment variables (already converted by `int(...)`). -/
structure Env where
  rank : ℤ
  world_size : ℤ
  deriving DecidableEq, Repr

/-- Which torchvision dataset class is instantiated by
`load_cifar_centralized_training_for_vit`. -/
inductive DatasetKind where
  | cifar10
  | cifar100
  deriving DecidableEq, Repr

/-- Number of distinct labels of each dataset (CIFAR-10 has labels 0..9,
CIFAR-100 has labels 0..99). -/
def DatasetKind.numLabels : DatasetKind → ℕ
  | .cifar10 => 10
  | .cifar100 => 100

/-- Externally observable events of a run of the scripts. -/
inductive Event where
  /-- Call `args = parser.parse_args()` returning. -/
  | parseArgs
  /-- Write `os.environ[name] = value` inside `init_ddp`. -/
  | setEnv (name value : String)
  /-- Call `dist.init_process_group(backend=.., rank=.., world_size=..)`. -/
  | initProcessGroup (backend : String) (rank world_size : ℤ)
  /-- Call `torch.distributed.barrier()` inside the data loader. -/
  | barrier
  /-- Call `wandb.init(project=..)` on the tracker. -/
  | wandbInit (project : String)
  /-- Construction of `datasets.CIFAR10/CIFAR100(..., train=tr, ...)`. -/
  | loadDataset (kind : DatasetKind) (train : Bool)
  /-- Construction of the train and test `DataLoader(...)` objects. -/
  | createLoaders
  /-- Construction of `VisionTransformer(config, img_size, num_classes=n)`. -/
  | constructModel (numClasses : ℕ)
  /-- Call `model.load_from(np.load(path))`: loading pretrained weights. -/
  | loadFrom (path : String)
  /-- Wrapping by `DDP(model, device_ids=[local_rank], ...)`. -/
  | ddpWrap (localRank : ℤ)
  /-- Optimizer construction in `train_and_eval` (`"sgd"` or `"adam"`). -/
  | createOptimizer (kind : String)
  /-- Scheduler construction in `train_and_eval` (`"cosine"` or `"linear"`). -/
  | createScheduler (kind : String)
  /-- One full call of `train(epoch, ...)`: forward/backward/optimizer steps
  over the training loader, mutating the model weights in place. -/
  | trainEpoch (epoch : ℕ)
  /-- One full call of `eval(epoch, ...)`: `_infer` over the train and test
  loaders (read-only on the weights). -/
  | evalEpoch (epoch : ℕ)
  /-- Call of wandb.log with the given metric key and round = epoch. -/
  | wandbLog (key : String) (round : ℕ)
  /-- Call `dist.destroy_process_group()`. -/
  | destroyProcessGroup
  /-- Emission of the parameter count,
  computed by `count_parameters(model)` and passed to the logger. -/
  | logParamCount
  /-- Call `print(model)` at the end of `test.py`. -/
  | printModel
  /-- An uncaught Python exception; the run stops here. -/
  | error (msg : String)
  deriving DecidableEq, Repr

/-- Trace of `init_ddp()` (lines 26-44): set the two NCCL environment
variables, then initialize the process group with the rank and world size read
from the `RANK` and `WORLD_SIZE` environment variables. -/
def init_ddp (env : Env) : List Event :=
  [Event.setEnv "NCCL_DEBUG" "INFO",
   Event.setEnv "NCCL_SOCKET_IFNAME" "ib0",
   Event.initProcessGroup "nccl" env.rank env.world_size]

/-- The value of `args` after the DDP block (lines 295-300): when
`is_distributed == 1`, line 297 executes `args.global_rank = global_rank`
with `global_rank = int(os.environ['RANK'])`; otherwise `args` is untouched.
No other statement in the script assigns to a field of `args`. -/
def argsAfterDdp (args : Args) (env : Env) : Args :=
  if args.is_distributed = 1 then { args with global_rank := env.rank } else args

/-- The local variable `global_rank` after the DDP block: the env `RANK` in
distributed mode, literal `0` otherwise (line 300) - independently of the
parsed `--global_rank` flag. -/
def effectiveGlobalRank (args : Args) (env : Env) : ℤ :=
  if args.is_distributed = 1 then env.rank else 0

/-- Which dataset class `load_cifar_centralized_training_for_vit` instantiates
(lines 191-208): `CIFAR10` for `--dataset cifar10`, `CIFAR100` for every other
value (the `else` branch). -/
def loadedDatasetKind (args : Args) : DatasetKind :=
  if args.dataset = "cifar10" then .cifar10 else .cifar100

/-- Trace of `load_cifar_centralized_training_for_vit(args)` (lines 162-226):
barrier (if distributed), construct train and test datasets, barrier (if
distributed), construct the loaders. -/
def load_cifar_centralized_training_for_vit (args : Args) : List Event :=
  (if args.is_distributed = 1 then [Event.barrier] else []) ++
  [Event.loadDataset (loadedDatasetKind args) true,
   Event.loadDataset (loadedDatasetKind args) false] ++
  (if args.is_distributed = 1 then [Event.barrier] else []) ++
  [Event.createLoaders]

/-- The `class_num` chosen by the dataset branch of `__main__`
(lines 315-323): 10 for `cifar10`, 100 for `cifar100`, 10 for anything else
(the `else` branch). -/
def classNum (args : Args) : ℕ :=
  if args.dataset = "cifar10" then 10
  else if args.dataset = "cifar100" then 100
  else 10

/-- Trace of `create_model(args, model_name, output_dim)` (lines 51-64): when
`model_name == "transformer"`, construct the `VisionTransformer` and load the
pretrained archive from `args.pretrained_dir`; otherwise nothing happens and
`None` is returned. -/
def create_model (args : Args) (model_name : String) (output_dim : ℕ) : List Event :=
  if model_name = "transformer" then
    [Event.constructModel output_dim, Event.loadFrom args.pretrained_dir]
  else []

/-- Trace of one `eval(epoch, ...)` call (lines 86-110): `_infer` over both
loaders, then - only when `args.global_rank == 0` - four `wandb.log` calls
for that epoch's train accuracy, train loss, test accuracy and test loss. -/
def evalTrace (globalRank : ℤ) (epoch : ℕ) : List Event :=
  Event.evalEpoch epoch ::
  (if globalRank = 0 then
    [Event.wandbLog "Train/Acc" epoch, Event.wandbLog "Train/Loss" epoch,
     Event.wandbLog "Test/Acc" epoch, Event.wandbLog "Test/Loss" epoch]
   else [])

/-- Trace of `train_and_eval(model, train_dl, test_dl, args, device)`
(lines 137-159): construct the optimizer (`sgd` or `adam`) and learning-rate
scheduler (`cosine` or `linear`), then `for epoch in range(args.epochs)`:
`train(epoch, ...)` followed by `eval(epoch, ...)`.  Python's `range(n)` is
empty for `n <= 0`, hence `Int.toNat`. -/
def train_and_eval (args : Args) : List Event :=
  [Event.createOptimizer (if args.client_optimizer = "sgd" then "sgd" else "adam"),
   Event.createScheduler (if args.decay_type = "cosine" then "cosine" else "linear")] ++
  (List.range args.epochs.toNat).flatMap
    (fun e => Event.trainEpoch e :: evalTrace args.global_rank e)

/-- Trace of the `__main__` block of `main_vit_fine_tune.py` (lines 229-333):
parse arguments; if distributed, run `init_ddp` and overwrite
`args.global_rank`; `wandb.init` when the local `global_rank` variable is 0;
load the dataset; construct the model via `create_model` - when `--model` is
not `"transformer"` this returns `None` and `.to(device)` raises
`AttributeError`, aborting the run; otherwise wrap in DDP if distributed, run
`train_and_eval`, and if distributed destroy the process group. -/
def mainTrace (args : Args) (env : Env) : List Event :=
  [Event.parseArgs] ++
  (if args.is_distributed = 1 then init_ddp env else []) ++
  (if effectiveGlobalRank args env = 0 then [Event.wandbInit "fed_transformer"] else []) ++
  load_cifar_centralized_training_for_vit (argsAfterDdp args env) ++
  (if args.model = "transformer" then
    create_model (argsAfterDdp args env) args.model (classNum (argsAfterDdp args env)) ++
    (if args.is_distributed = 1 then [Event.ddpWrap args.local_rank] else []) ++
    train_and_eval (argsAfterDdp args env) ++
    (if args.is_distributed = 1 then [Event.destroyProcessGroup] else [])
   else [Event.error "AttributeError: NoneType object has no attribute to"])

/-- Trace of the `test.py` smoke-test script: construct the
`VisionTransformer` with `num_classes = 10`, load the pretrained archive,
emit the parameter count, print the model. -/
def testTrace : List Event :=
  [Event.constructModel 10,
   Event.loadFrom "./../../../fedml_api/model/cv/pretrained/Transformer/vit/ViT-B_16.npz",
   Event.logParamCount,
   Event.printModel]

/-- One sample of a loader batch, as seen by `_infer`: the model's output
scores over the classes (`log_probs` row), the ground-truth label, and the
per-sample cross-entropy loss.  The loss value itself is an external-framework
computation and is carried as data. -/
structure Sample where
  logits : List ℚ
  target : ℕ
  loss : ℚ
  deriving DecidableEq, Repr

/-- Index of the first maximal element of a score row, as
`torch.max(log_probs, -1)` yields for that row (`predicted`). -/
def argmaxIdx (l : List ℚ) : ℕ :=
  (l.foldl
    (fun acc v => if acc.2.1 < v then (acc.2.2, v, acc.2.2 + 1)
                  else (acc.1, acc.2.1, acc.2.2 + 1))
    (0, l.headD 0, 0)).1

/-- Value of `predicted.eq(target).sum()` for one batch: the number of samples whose
argmax prediction equals the label. -/
def batchCorrect (b : List Sample) : ℕ :=
  (b.filter (fun s => argmaxIdx s.logits == s.target)).length

/-- Value of `criterion(log_probs, target)` for one batch: `nn.CrossEntropyLoss` with
the default `reduction='mean'`, i.e. the mean of the per-sample losses. -/
def batchMeanLoss (b : List Sample) : ℚ :=
  (b.map Sample.loss).sum / b.length

/-- One loop iteration of `_infer` (lines 72-81): add the batch's correct
count to `test_acc`, the batch size to `test_total`, and
`loss.item() * target.size(0)` to `test_loss`. -/
def inferStep (acc : ℕ × ℕ × ℚ) (b : List Sample) : ℕ × ℕ × ℚ :=
  (acc.1 + batchCorrect b, acc.2.1 + b.length, acc.2.2 + batchMeanLoss b * b.length)

/-- Model of `_infer(test_data, device)` (lines 67-83): fold over the batches starting
from `test_acc = test_total = test_loss = 0`, returning
`(test_acc, test_total, test_loss)`. -/
def _infer (batches : List (List Sample)) : ℕ × ℕ × ℚ :=
  batches.foldl inferStep (0, 0, 0)

/-- The accuracy / average-loss pair `eval` derives from an `_infer` result
(lines 94-99): `acc = tot_correct / num_sample`, `loss = loss / num_sample`. -/
def evalMetrics (r : ℕ × ℕ × ℚ) : ℚ × ℚ :=
  ((r.1 : ℚ) / (r.2.1 : ℚ), r.2.2 / (r.2.1 : ℚ))

/-- Events that are training or evaluation passes. -/
def isEpochEvent : Event → Bool
  | .trainEpoch _ => true
  | .evalEpoch _ => true
  | _ => false

/-- Events that are training passes. -/
def isTrainEvent : Event → Bool
  | .trainEpoch _ => true
  | _ => false

/-- Events that write the model weights: loading the pretrained archive, or a
training pass (optimizer steps). -/
def mutatesWeights : Event → Bool
  | .loadFrom _ => true
  | .trainEpoch _ => true
  | _ => false

/-- Events that are part of the script's own distributed logic: NCCL
environment-variable writes and calls into `torch.distributed`
(`init_process_group`, `barrier`, `destroy_process_group`). -/
def isDistCall : Event → Bool
  | .setEnv _ _ => true
  | .initProcessGroup _ _ _ => true
  | .barrier => true
  | .destroyProcessGroup => true
  | _ => false

/-- Events that touch the wandb experiment tracker. -/
def isWandbCall : Event → Bool
  | .wandbInit _ => true
  | .wandbLog _ _ => true
  | _ => false

/-- Events that log a metric to the tracker. -/
def isWandbLog : Event → Bool
  | .wandbLog _ _ => true
  | _ => false

/-- The pipeline stages of the spec's linear-pipeline description.  Each stage
is witnessed in the trace by a designated call made inside it: argument
parsing by `parse_args` returning, distributed initialization by
`init_process_group`, dataset construction by the `DataLoader` construction
that ends it, model construction by the `VisionTransformer` constructor,
data-parallel wrapping by the `DDP` constructor, the epoch loop by the
optimizer construction at the top of `train_and_eval`, and teardown by
`destroy_process_group`. -/
inductive Stage where
  | parseStage
  | ddpInitStage
  | dataStage
  | modelStage
  | wrapStage
  | loopStage
  | teardownStage
  deriving DecidableEq, Repr

/-- The stage marker of an event, if it is one. -/
def stageOf : Event → Option Stage
  | .parseArgs => some .parseStage
  | .initProcessGroup _ _ _ => some .ddpInitStage
  | .createLoaders => some .dataStage
  | .constructModel _ => some .modelStage
  | .ddpWrap _ => some .wrapStage
  | .createOptimizer _ => some .loopStage
  | .destroyProcessGroup => some .teardownStage
  | _ => none

@[simp]
theorem argsAfterDdp_dataset (args : Args) (env : Env) :
    (argsAfterDdp args env).dataset = args.dataset := by
  unfold argsAfterDdp; split <;> rfl

@[simp]
theorem argsAfterDdp_model (args : Args) (env : Env) :
    (argsAfterDdp args env).model = args.model := by
  unfold argsAfterDdp; split <;> rfl

@[simp]
theorem argsAfterDdp_epochs (args : Args) (env : Env) :
    (argsAfterDdp args env).epochs = args.epochs := by
  unfold argsAfterDdp; split <;> rfl

@[simp]
theorem argsAfterDdp_pretrained_dir (args : Args) (env : Env) :
    (argsAfterDdp args env).pretrained_dir = args.pretrained_dir := by
  unfold argsAfterDdp; split <;> rfl

@[simp]
theorem argsAfterDdp_is_distributed (args : Args) (env : Env) :
    (argsAfterDdp args env).is_distributed = args.is_distributed := by
  unfold argsAfterDdp; split <;> rfl

theorem filter_epoch_iteration (gr : ℤ) (e : ℕ) :
    (Event.trainEpoch e :: evalTrace gr e).filter isEpochEvent
      = [Event.trainEpoch e, Event.evalEpoch e] := by
  unfold evalTrace; split <;> rfl

theorem filter_train_iteration (gr : ℤ) (e : ℕ) :
    (Event.trainEpoch e :: evalTrace gr e).filter isTrainEvent
      = [Event.trainEpoch e] := by
  unfold evalTrace; split <;> rfl

theorem filter_weights_iteration (gr : ℤ) (e : ℕ) :
    (Event.trainEpoch e :: evalTrace gr e).filter mutatesWeights
      = [Event.trainEpoch e] := by
  unfold evalTrace; split <;> rfl

theorem filter_dist_iteration (gr : ℤ) (e : ℕ) :
    (Event.trainEpoch e :: evalTrace gr e).filter isDistCall = [] := by
  unfold evalTrace; split <;> rfl

theorem filterMap_stage_iteration (gr : ℤ) (e : ℕ) :
    (Event.trainEpoch e :: evalTrace gr e).filterMap stageOf = [] := by
  unfold evalTrace; split <;> rfl

theorem filter_wandbLog_iteration (gr : ℤ) (e : ℕ) :
    (Event.trainEpoch e :: evalTrace gr e).filter isWandbLog
      = if gr = 0 then
          [Event.wandbLog "Train/Acc" e, Event.wandbLog "Train/Loss" e,
           Event.wandbLog "Test/Acc" e, Event.wandbLog "Test/Loss" e]
        else [] := by
  unfold evalTrace
  split <;> rfl

theorem filter_wandbCall_iteration (gr : ℤ) (e : ℕ) :
    (Event.trainEpoch e :: evalTrace gr e).filter isWandbCall
      = if gr = 0 then
          [Event.wandbLog "Train/Acc" e, Event.wandbLog "Train/Loss" e,
           Event.wandbLog "Test/Acc" e, Event.wandbLog "Test/Loss" e]
        else [] := by
  unfold evalTrace
  split <;> rfl

theorem loop_filter_epoch (gr : ℤ) (n : ℕ) :
    ((List.range n).flatMap (fun e => Event.trainEpoch e :: evalTrace gr e)).filter isEpochEvent
      = (List.range n).flatMap (fun e => [Event.trainEpoch e, Event.evalEpoch e]) := by
  rw [List.filter_flatMap]
  simp only [filter_epoch_iteration]

theorem loop_filter_train (gr : ℤ) (n : ℕ) :
    ((List.range n).flatMap (fun e => Event.trainEpoch e :: evalTrace gr e)).filter isTrainEvent
      = (List.range n).map Event.trainEpoch := by
  rw [List.filter_flatMap]
  simp only [filter_train_iteration]
  exact (List.map_eq_flatMap Event.trainEpoch (List.range n)).symm

theorem loop_filter_weights (gr : ℤ) (n : ℕ) :
    ((List.range n).flatMap (fun e => Event.trainEpoch e :: evalTrace gr e)).filter mutatesWeights
      = (List.range n).map Event.trainEpoch := by
  rw [List.filter_flatMap]
  simp only [filter_weights_iteration]
  exact (List.map_eq_flatMap Event.trainEpoch (List.range n)).symm

theorem loop_filter_dist (gr : ℤ) (n : ℕ) :
    ((List.range n).flatMap (fun e => Event.trainEpoch e :: evalTrace gr e)).filter isDistCall
      = [] := by
  rw [List.filter_flatMap]
  simp only [filter_dist_iteration]
  simp

theorem loop_filterMap_stage (gr : ℤ) (n : ℕ) :
    ((List.range n).flatMap (fun e => Event.trainEpoch e :: evalTrace gr e)).filterMap stageOf
      = [] := by
  rw [List.filterMap_flatMap]
  simp only [filterMap_stage_iteration]
  simp

theorem loop_filter_wandbLog (gr : ℤ) (n : ℕ) :
    ((List.range n).flatMap (fun e => Event.trainEpoch e :: evalTrace gr e)).filter isWandbLog
      = if gr = 0 then
          (List.range n).flatMap (fun e =>
            [Event.wandbLog "Train/Acc" e, Event.wandbLog "Train/Loss" e,
             Event.wandbLog "Test/Acc" e, Event.wandbLog "Test/Loss" e])
        else [] := by
  rw [List.filter_flatMap]
  simp only [filter_wandbLog_iteration]
  rcases eq_or_ne gr 0 with h | h <;> simp [h]

theorem loop_filter_wandbCall (gr : ℤ) (n : ℕ) :
    ((List.range n).flatMap (fun e => Event.trainEpoch e :: evalTrace gr e)).filter isWandbCall
      = if gr = 0 then
          (List.range n).flatMap (fun e =>
            [Event.wandbLog "Train/Acc" e, Event.wandbLog "Train/Loss" e,
             Event.wandbLog "Test/Acc" e, Event.wandbLog "Test/Loss" e])
        else [] := by
  rw [List.filter_flatMap]
  simp only [filter_wandbCall_iteration]
  rcases eq_or_ne gr 0 with h | h <;> simp [h]

theorem flatMap_infix {α β : Type} (f : α → List β) {l : List α} {a : α} (h : a ∈ l) :
    f a <:+: l.flatMap f := by
  obtain ⟨s, t, rfl⟩ := List.mem_iff_append.mp h
  exact ⟨s.flatMap f, t.flatMap f, by simp⟩

theorem infix_extend {α : Type} {l m : List α} (x y : List α) (h : l <:+: m) :
    l <:+: x ++ m ++ y := by
  obtain ⟨s, t, rfl⟩ := h
  exact ⟨x ++ s, t ++ y, by simp [List.append_assoc]⟩

/-- A single-process run configuration: the defaults with a 2-epoch budget. -/
def twoEpochArgs : Args := { defaultArgs with epochs := 2 }

/-- A distributed run configuration: defaults with `--is_distributed 1` and a
2-epoch budget. -/
def distArgs : Args := { defaultArgs with is_distributed := 1, epochs := 2 }

/-- A single-process run configuration with `--global_rank 1`. -/
def rankOneArgs : Args := { defaultArgs with global_rank := 1, epochs := 1 }

/-- An environment with `RANK=0`, `WORLD_SIZE=4`. -/
def envRank0 : Env := ⟨0, 4⟩

/-- An environment with `RANK=3`, `WORLD_SIZE=4`. -/
def envRank3 : Env := ⟨3, 4⟩

theorem batchCorrect_le (b : List Sample) : batchCorrect b ≤ b.length :=
  List.length_filter_le _ b

theorem batchMeanLoss_mul (b : List Sample) :
    batchMeanLoss b * (b.length : ℚ) = (b.map Sample.loss).sum := by
  unfold batchMeanLoss
  rcases eq_or_ne b.length 0 with h | h
  · rw [List.length_eq_zero.mp h]
    simp
  · rw [div_mul_cancel₀]
    exact_mod_cast h

theorem infer_foldl (batches : List (List Sample)) (a : ℕ × ℕ × ℚ) :
    batches.foldl inferStep a =
      (a.1 + (batches.map batchCorrect).sum,
       a.2.1 + (batches.map List.length).sum,
       a.2.2 + (batches.map (fun b => (b.map Sample.loss).sum)).sum) := by
  induction batches generalizing a with
  | nil => simp
  | cons b bs ih =>
    rw [List.foldl_cons, ih]
    simp only [inferStep, List.map_cons, List.sum_cons, batchMeanLoss_mul]
    refine Prod.ext ?_ (Prod.ext ?_ ?_) <;> simp <;> ring

/-- Claim C9: `_infer` returns a triple `(correct, total, loss_sum)` in which
`correct` is the number of samples whose argmax prediction equals the label,
`total` is the number of samples seen, and `loss_sum` is the sum over batches
of the batch-mean loss times the batch size; hence `correct ≤ total`, the
accuracy `correct / total` that `eval` reports lies in `[0, 1]`, and the
reported loss is the per-sample average of the individual sample losses. -/
theorem infer_accounting (batches : List (List Sample))
    (ht : (_infer batches).2.1 ≠ 0) :
    (_infer batches).1 = (batches.map batchCorrect).sum ∧
    (_infer batches).2.1 = (batches.map List.length).sum ∧
    (_infer batches).2.2
      = (batches.map (fun b => batchMeanLoss b * (b.length : ℚ))).sum ∧
    (_infer batches).1 ≤ (_infer batches).2.1 ∧
    0 ≤ (evalMetrics (_infer batches)).1 ∧
    (evalMetrics (_infer batches)).1 ≤ 1 ∧
    (evalMetrics (_infer batches)).2 =
      (batches.map (fun b => (b.map Sample.loss).sum)).sum
        / ((_infer batches).2.1 : ℚ) := by
  have hinf : _infer batches =
      ((batches.map batchCorrect).sum, (batches.map List.length).sum,
       (batches.map (fun b => (b.map Sample.loss).sum)).sum) := by
    unfold _infer
    rw [infer_foldl]
    simp
  have hc : (_infer batches).1 ≤ (_infer batches).2.1 := by
    rw [hinf]
    exact List.sum_le_sum fun b _ => batchCorrect_le b
  have htq : (0 : ℚ) < ((_infer batches).2.1 : ℚ) := by
    exact_mod_cast Nat.pos_of_ne_zero ht
  refine ⟨by rw [hinf], by rw [hinf], ?_, hc, ?_, ?_, ?_⟩
  · rw [hinf]
    simp only [batchMeanLoss_mul]
  · exact div_nonneg (Nat.cast_nonneg _) (Nat.cast_nonneg _)
  · unfold evalMetrics
    exact (div_le_one htq).mpr (by exact_mod_cast hc)
  · unfold evalMetrics
    rw [hinf]

/-- Concrete evaluation data: two singleton batches; the first sample is
predicted correctly, the second is not. -/
def witnessBatches : List (List Sample) :=
  [[⟨[1, 0], 0, 1⟩], [⟨[0, 2], 0, 3⟩]]

/-- Witness for `infer_accounting` at concrete evaluation data. -/
theorem infer_accounting_witness :
    (_infer witnessBatches).1 = (witnessBatches.map batchCorrect).sum ∧
    (_infer witnessBatches).2.1 = (witnessBatches.map List.length).sum ∧
    (_infer witnessBatches).2.2
      = (witnessBatches.map (fun b => batchMeanLoss b * (b.length : ℚ))).sum ∧
    (_infer witnessBatches).1 ≤ (_infer witnessBatches).2.1 ∧
    0 ≤ (evalMetrics (_infer witnessBatches)).1 ∧
    (evalMetrics (_infer witnessBatches)).1 ≤ 1 ∧
    (evalMetrics (_infer witnessBatches)).2 =
      (witnessBatches.map (fun b => (b.map Sample.loss).sum)).sum
        / ((_infer witnessBatches).2.1 : ℚ) :=
  infer_accounting witnessBatches (by decide)

@[simp]
theorem loadedDatasetKind_argsAfterDdp (args : Args) (env : Env) :
    loadedDatasetKind (argsAfterDdp args env) = loadedDatasetKind args := by
  unfold loadedDatasetKind
  rw [argsAfterDdp_dataset]

@[simp]
theorem classNum_argsAfterDdp (args : Args) (env : Env) :
    classNum (argsAfterDdp args env) = classNum args := by
  unfold classNum
  rw [argsAfterDdp_dataset]

/-- Claim C8: for every dataset argument other than `"cifar10"` and
`"cifar100"`, the loader's else branch loads the CIFAR-100 datasets while the
main script's else branch sets the model's output dimension to 10, so the
constructed model's output dimension does not match the loaded dataset's
label range. -/
theorem dataset_class_mismatch (args : Args) (env : Env)
    (h10 : args.dataset ≠ "cifar10") (h100 : args.dataset ≠ "cifar100") :
    loadedDatasetKind args = DatasetKind.cifar100 ∧
    classNum args = 10 ∧
    classNum args ≠ (loadedDatasetKind args).numLabels ∧
    Event.loadDataset DatasetKind.cifar100 true ∈ mainTrace args env ∧
    (args.model = "transformer" → Event.constructModel 10 ∈ mainTrace args env) := by
  have hkind : loadedDatasetKind args = DatasetKind.cifar100 := by
    unfold loadedDatasetKind
    rw [if_neg h10]
  have hclass : classNum args = 10 := by
    unfold classNum
    rw [if_neg h10, if_neg h100]
  refine ⟨hkind, hclass, by rw [hkind, hclass]; decide, ?_, ?_⟩
  · simp [mainTrace, load_cifar_centralized_training_for_vit, hkind]
  · intro hm
    simp [mainTrace, hm, create_model, classNum, h10, h100]

/-- Claim C5: the smoke-test script `test.py` constructs the Vision
Transformer, loads the pretrained weights into it (from the same archive path
as the driver's `--pretrained_dir` default), and emits the model's parameter
count; the weights are loaded before the count is emitted. -/
theorem smoke_test_behaviour :
    Event.constructModel 10 ∈ testTrace ∧
    Event.loadFrom defaultArgs.pretrained_dir ∈ testTrace ∧
    Event.logParamCount ∈ testTrace ∧
    testTrace.indexOf (Event.loadFrom defaultArgs.pretrained_dir)
      < testTrace.indexOf Event.logParamCount := by decide

/-- Claim C1 counterexample: in a distributed run (`--is_distributed 1`,
`RANK=3`) the statement `args.global_rank = global_rank` on line 297
reassigns a field of `args` after `parse_args` returns: `global_rank`
changes from the parsed 0 to 3. -/
theorem args_mutated_counterexample :
    distArgs.is_distributed = 1 ∧
    (argsAfterDdp distArgs envRank3).global_rank ≠ distArgs.global_rank := by
  decide

/-- Claim C1 (amended): the parsed configuration is immutable once parsed
except for `global_rank`: a run with the distributed flag unset never mutates
`args`, and in every run each field other than `global_rank` keeps its parsed
value. -/
theorem args_immutable_except_global_rank (args : Args) (env : Env) :
    (args.is_distributed ≠ 1 → argsAfterDdp args env = args) ∧
    argsAfterDdp args env
      = { args with global_rank := (argsAfterDdp args env).global_rank } := by
  unfold argsAfterDdp
  split <;> rename_i h
  · exact ⟨fun hn => absurd h hn, rfl⟩
  · exact ⟨fun _ => rfl, rfl⟩

/-- Witness for `args_immutable_except_global_rank`: the default
(non-distributed) configuration is returned unchanged. -/
theorem args_immutable_except_global_rank_witness :
    argsAfterDdp defaultArgs envRank3 = defaultArgs :=
  (args_immutable_except_global_rank defaultArgs envRank3).1 (by decide)

/-- A run configuration with an unrecognized dataset name. -/
def svhnArgs : Args := { defaultArgs with dataset := "svhn", epochs := 1 }

/-- Witness for `dataset_class_mismatch` at `--dataset svhn`. -/
theorem dataset_class_mismatch_witness :
    loadedDatasetKind svhnArgs = DatasetKind.cifar100 ∧
    classNum svhnArgs = 10 ∧
    classNum svhnArgs ≠ (loadedDatasetKind svhnArgs).numLabels ∧
    Event.loadDataset DatasetKind.cifar100 true ∈ mainTrace svhnArgs envRank0 ∧
    (svhnArgs.model = "transformer" →
      Event.constructModel 10 ∈ mainTrace svhnArgs envRank0) :=
  dataset_class_mismatch svhnArgs envRank0 (by decide) (by decide)

theorem filter_ite_list {p : Event → Bool} {c : Prop} [Decidable c]
    {l₁ l₂ : List Event} :
    (if c then l₁ else l₂).filter p = if c then l₁.filter p else l₂.filter p := by
  split <;> rfl

theorem filterMap_ite_list {f : Event → Option Stage} {c : Prop} [Decidable c]
    {l₁ l₂ : List Event} :
    (if c then l₁ else l₂).filterMap f = if c then l₁.filterMap f else l₂.filterMap f := by
  split <;> rfl

/-- Claim C7: the model's weights are loaded from the pretrained archive
exactly once per run - a single `load_from` call on the freshly constructed
model, with the path taken from `--pretrained_dir` - and every later
weight-mutating step is a training pass, never a reload: the weight-mutating
events of the run are exactly the one load followed by the epoch trainings. -/
theorem weights_loaded_once (args : Args) (env : Env)
    (hm : args.model = "transformer") :
    (mainTrace args env).filter mutatesWeights =
      Event.loadFrom args.pretrained_dir ::
        (List.range args.epochs.toNat).map Event.trainEpoch := by
  unfold mainTrace
  rw [if_pos hm]
  simp [List.filter_append, filter_ite_list, loop_filter_weights,
    load_cifar_centralized_training_for_vit, create_model, train_and_eval,
    init_ddp, hm, mutatesWeights, List.filter]

/-- Witness for `weights_loaded_once` at the default configuration with a
2-epoch budget. -/
theorem weights_loaded_once_witness :
    (mainTrace twoEpochArgs envRank0).filter mutatesWeights =
      Event.loadFrom twoEpochArgs.pretrained_dir ::
        (List.range twoEpochArgs.epochs.toNat).map Event.trainEpoch :=
  weights_loaded_once twoEpochArgs envRank0 (by decide)

/-- Claim C2: `train_and_eval` runs the epoch loop exactly `args.epochs`
times; within every iteration the training pass over the training loader
completes before the evaluation begins (epoch `e` contributes the pair
`train e` then `eval e`, for `e = 0, ..., args.epochs - 1` in order), and no
training or evaluation pass of the run happens outside this loop. -/
theorem train_and_eval_loop_structure (args : Args) (env : Env)
    (h0 : 0 ≤ args.epochs) (hm : args.model = "transformer") :
    (train_and_eval (argsAfterDdp args env)).filter isEpochEvent
      = (List.range args.epochs.toNat).flatMap
          (fun e => [Event.trainEpoch e, Event.evalEpoch e]) ∧
    (((train_and_eval (argsAfterDdp args env)).filter isTrainEvent).length : ℤ)
      = args.epochs ∧
    (mainTrace args env).filter isEpochEvent
      = (train_and_eval (argsAfterDdp args env)).filter isEpochEvent := by
  have h2 : (train_and_eval (argsAfterDdp args env)).filter isTrainEvent
      = (List.range args.epochs.toNat).map Event.trainEpoch := by
    simp [train_and_eval, List.filter_append, loop_filter_train, isTrainEvent,
      List.filter]
  refine ⟨?_, ?_, ?_⟩
  · simp [train_and_eval, List.filter_append, loop_filter_epoch, isEpochEvent,
      List.filter]
  · rw [h2]
    simp [Int.toNat_of_nonneg h0]
  · unfold mainTrace
    rw [if_pos hm]
    simp [List.filter_append, filter_ite_list,
      load_cifar_centralized_training_for_vit, create_model, init_ddp,
      isEpochEvent, List.filter]

/-- Witness for `train_and_eval_loop_structure` at the default configuration
with a 2-epoch budget. -/
theorem train_and_eval_loop_structure_witness :
    (train_and_eval (argsAfterDdp twoEpochArgs envRank0)).filter isEpochEvent
      = (List.range twoEpochArgs.epochs.toNat).flatMap
          (fun e => [Event.trainEpoch e, Event.evalEpoch e]) ∧
    (((train_and_eval (argsAfterDdp twoEpochArgs envRank0)).filter
        isTrainEvent).length : ℤ) = twoEpochArgs.epochs ∧
    (mainTrace twoEpochArgs envRank0).filter isEpochEvent
      = (train_and_eval (argsAfterDdp twoEpochArgs envRank0)).filter isEpochEvent :=
  train_and_eval_loop_structure twoEpochArgs envRank0 (by decide) (by decide)

@[simp]
theorem stageOf_parseArgs : stageOf Event.parseArgs = some Stage.parseStage := rfl

@[simp]
theorem stageOf_setEnv (n v : String) : stageOf (Event.setEnv n v) = none := rfl

@[simp]
theorem stageOf_initProcessGroup (b : String) (r w : ℤ) :
    stageOf (Event.initProcessGroup b r w) = some Stage.ddpInitStage := rfl

@[simp]
theorem stageOf_barrier : stageOf Event.barrier = none := rfl

@[simp]
theorem stageOf_wandbInit (p : String) : stageOf (Event.wandbInit p) = none := rfl

@[simp]
theorem stageOf_loadDataset (k : DatasetKind) (t : Bool) :
    stageOf (Event.loadDataset k t) = none := rfl

@[simp]
theorem stageOf_createLoaders : stageOf Event.createLoaders = some Stage.dataStage := rfl

@[simp]
theorem stageOf_constructModel (n : ℕ) :
    stageOf (Event.constructModel n) = some Stage.modelStage := rfl

@[simp]
theorem stageOf_loadFrom (p : String) : stageOf (Event.loadFrom p) = none := rfl

@[simp]
theorem stageOf_ddpWrap (r : ℤ) : stageOf (Event.ddpWrap r) = some Stage.wrapStage := rfl

@[simp]
theorem stageOf_createOptimizer (k : String) :
    stageOf (Event.createOptimizer k) = some Stage.loopStage := rfl

@[simp]
theorem stageOf_createScheduler (k : String) :
    stageOf (Event.createScheduler k) = none := rfl

@[simp]
theorem stageOf_trainEpoch (e : ℕ) : stageOf (Event.trainEpoch e) = none := rfl

@[simp]
theorem stageOf_evalEpoch (e : ℕ) : stageOf (Event.evalEpoch e) = none := rfl

@[simp]
theorem stageOf_wandbLog (k : String) (e : ℕ) : stageOf (Event.wandbLog k e) = none := rfl

@[simp]
theorem stageOf_destroyProcessGroup :
    stageOf Event.destroyProcessGroup = some Stage.teardownStage := rfl

@[simp]
theorem stageOf_error (m : String) : stageOf (Event.error m) = none := rfl

/-- Claim C3: the main script executes its stages in the fixed order
parse arguments → (only if distributed) process-group initialization →
dataset/loader construction → model construction with pretrained-weight
loading → (only if distributed) data-parallel wrapping → epoch loop →
(only if distributed) teardown; no stage is skipped or reordered. -/
theorem main_pipeline_stage_order (args : Args) (env : Env)
    (hm : args.model = "transformer") :
    (mainTrace args env).filterMap stageOf =
      [Stage.parseStage] ++
      (if args.is_distributed = 1 then [Stage.ddpInitStage] else []) ++
      [Stage.dataStage, Stage.modelStage] ++
      (if args.is_distributed = 1 then [Stage.wrapStage] else []) ++
      [Stage.loopStage] ++
      (if args.is_distributed = 1 then [Stage.teardownStage] else []) := by
  unfold mainTrace
  rw [if_pos hm]
  rcases eq_or_ne args.is_distributed 1 with hd | hd <;>
    simp [hd, hm, List.filterMap_append, filterMap_ite_list, loop_filterMap_stage,
      load_cifar_centralized_training_for_vit, create_model, train_and_eval,
      init_ddp, List.filterMap_cons]

/-- Witness for `main_pipeline_stage_order` at a distributed 2-epoch
configuration. -/
theorem main_pipeline_stage_order_witness :
    (mainTrace distArgs envRank0).filterMap stageOf =
      [Stage.parseStage] ++
      (if distArgs.is_distributed = 1 then [Stage.ddpInitStage] else []) ++
      [Stage.dataStage, Stage.modelStage] ++
      (if distArgs.is_distributed = 1 then [Stage.wrapStage] else []) ++
      [Stage.loopStage] ++
      (if distArgs.is_distributed = 1 then [Stage.teardownStage] else []) :=
  main_pipeline_stage_order distArgs envRank0 (by decide)

/-- Claim C4 counterexample: a distributed run also calls
`torch.distributed.barrier()` (twice, around dataset construction), so the
script's distributed logic does not consist only of the two
environment-variable writes plus `init_process_group`/`destroy_process_group`:
the run's distributed-call trace differs from that four-call list. -/
theorem dist_calls_counterexample :
    distArgs.is_distributed = 1 ∧
    Event.barrier ∈ mainTrace distArgs envRank0 ∧
    (mainTrace distArgs envRank0).filter isDistCall ≠
      [Event.setEnv "NCCL_DEBUG" "INFO", Event.setEnv "NCCL_SOCKET_IFNAME" "ib0",
       Event.initProcessGroup "nccl" envRank0.rank envRank0.world_size,
       Event.destroyProcessGroup] := by
  decide

/-- Claim C4 (amended): when `is_distributed == 1`, the script's distributed
logic consists only of setting `NCCL_DEBUG='INFO'` and
`NCCL_SOCKET_IFNAME='ib0'`, calling `dist.init_process_group` with the rank
and world size read from the `RANK` and `WORLD_SIZE` environment variables,
two `torch.distributed.barrier()` calls around dataset construction, and
`dist.destroy_process_group`; when `is_distributed != 1`, none of these calls
happen. -/
theorem dist_calls_characterization (args : Args) (env : Env)
    (hm : args.model = "transformer") :
    (mainTrace args env).filter isDistCall =
      if args.is_distributed = 1 then
        [Event.setEnv "NCCL_DEBUG" "INFO", Event.setEnv "NCCL_SOCKET_IFNAME" "ib0",
         Event.initProcessGroup "nccl" env.rank env.world_size,
         Event.barrier, Event.barrier, Event.destroyProcessGroup]
      else [] := by
  unfold mainTrace
  rw [if_pos hm]
  rcases eq_or_ne args.is_distributed 1 with hd | hd <;>
    simp [hd, hm, List.filter_append, filter_ite_list, loop_filter_dist,
      load_cifar_centralized_training_for_vit, create_model, train_and_eval,
      init_ddp, isDistCall, List.filter]

/-- Witness for `dist_calls_characterization` at a distributed 2-epoch
configuration. -/
theorem dist_calls_characterization_witness :
    (mainTrace distArgs envRank0).filter isDistCall =
      if distArgs.is_distributed = 1 then
        [Event.setEnv "NCCL_DEBUG" "INFO", Event.setEnv "NCCL_SOCKET_IFNAME" "ib0",
         Event.initProcessGroup "nccl" envRank0.rank envRank0.world_size,
         Event.barrier, Event.barrier, Event.destroyProcessGroup]
      else [] :=
  dist_calls_characterization distArgs envRank0 (by decide)

/-- Claim C6 counterexample: in a single-process run with `--global_rank 1`
and one epoch, evaluation happens but no metric of that epoch is logged to
the experiment tracker, because the logging in `eval` is gated on
`args.global_rank == 0`. -/
theorem eval_logging_counterexample :
    rankOneArgs.global_rank ≠ 0 ∧
    Event.evalEpoch 0 ∈ mainTrace rankOneArgs envRank0 ∧
    (mainTrace rankOneArgs envRank0).filter isWandbLog = [] := by
  decide

/-- Claim C6 (amended): in every run in which `args.global_rank` (after the
distributed overwrite) is 0, each epoch's evaluation is immediately followed
by logging that epoch's training accuracy, training loss, test accuracy and
test loss to the experiment tracker. -/
theorem eval_logs_metrics_when_rank_zero (args : Args) (env : Env)
    (hm : args.model = "transformer")
    (hr : (argsAfterDdp args env).global_rank = 0)
    (e : ℕ) (he : (e : ℤ) < args.epochs) :
    [Event.evalEpoch e,
     Event.wandbLog "Train/Acc" e, Event.wandbLog "Train/Loss" e,
     Event.wandbLog "Test/Acc" e, Event.wandbLog "Test/Loss" e]
      <:+: mainTrace args env := by
  have hmem : e ∈ List.range args.epochs.toNat :=
    List.mem_range.mpr (Int.lt_toNat.mpr he)
  have h1 : (Event.trainEpoch e :: evalTrace (argsAfterDdp args env).global_rank e)
      <:+: (List.range args.epochs.toNat).flatMap
        (fun x => Event.trainEpoch x :: evalTrace (argsAfterDdp args env).global_rank x) :=
    flatMap_infix
      (fun x => Event.trainEpoch x :: evalTrace (argsAfterDdp args env).global_rank x) hmem
  have hev : evalTrace (argsAfterDdp args env).global_rank e
      = [Event.evalEpoch e, Event.wandbLog "Train/Acc" e, Event.wandbLog "Train/Loss" e,
         Event.wandbLog "Test/Acc" e, Event.wandbLog "Test/Loss" e] := by
    unfold evalTrace
    rw [hr]
    simp
  have h2 : [Event.evalEpoch e, Event.wandbLog "Train/Acc" e, Event.wandbLog "Train/Loss" e,
      Event.wandbLog "Test/Acc" e, Event.wandbLog "Test/Loss" e]
      <:+: (Event.trainEpoch e :: evalTrace (argsAfterDdp args env).global_rank e) :=
    ⟨[Event.trainEpoch e], [], by rw [hev]; simp⟩
  have h4 : (List.range args.epochs.toNat).flatMap
      (fun x => Event.trainEpoch x :: evalTrace (argsAfterDdp args env).global_rank x)
      <:+: train_and_eval (argsAfterDdp args env) := by
    refine ⟨[Event.createOptimizer
        (if (argsAfterDdp args env).client_optimizer = "sgd" then "sgd" else "adam"),
      Event.createScheduler
        (if (argsAfterDdp args env).decay_type = "cosine" then "cosine" else "linear")],
      [], ?_⟩
    simp [train_and_eval]
  have h3 : train_and_eval (argsAfterDdp args env) <:+: mainTrace args env := by
    refine ⟨[Event.parseArgs] ++
      (if args.is_distributed = 1 then init_ddp env else []) ++
      (if effectiveGlobalRank args env = 0 then [Event.wandbInit "fed_transformer"] else []) ++
      load_cifar_centralized_training_for_vit (argsAfterDdp args env) ++
      create_model (argsAfterDdp args env) args.model (classNum (argsAfterDdp args env)) ++
      (if args.is_distributed = 1 then [Event.ddpWrap args.local_rank] else []),
      (if args.is_distributed = 1 then [Event.destroyProcessGroup] else []), ?_⟩
    simp [mainTrace, hm, List.append_assoc]
  exact ((h2.trans h1).trans h4).trans h3

/-- Witness for `eval_logs_metrics_when_rank_zero` at the default
configuration with a 2-epoch budget, epoch 0. -/
theorem eval_logs_metrics_when_rank_zero_witness :
    [Event.evalEpoch 0,
     Event.wandbLog "Train/Acc" 0, Event.wandbLog "Train/Loss" 0,
     Event.wandbLog "Test/Acc" 0, Event.wandbLog "Test/Loss" 0]
      <:+: mainTrace twoEpochArgs envRank0 :=
  eval_logs_metrics_when_rank_zero twoEpochArgs envRank0 (by decide) (by decide) 0 (by decide)

/-- Events that are `wandb.init` calls. -/
def isWandbInit : Event → Bool
  | .wandbInit _ => true
  | _ => false

theorem filter_wandbInit_iteration (gr : ℤ) (e : ℕ) :
    (Event.trainEpoch e :: evalTrace gr e).filter isWandbInit = [] := by
  unfold evalTrace
  split <;> rfl

theorem loop_filter_wandbInit (gr : ℤ) (n : ℕ) :
    ((List.range n).flatMap
      (fun e => Event.trainEpoch e :: evalTrace gr e)).filter isWandbInit = [] := by
  rw [List.filter_flatMap]
  simp only [filter_wandbInit_iteration]
  simp

/-- Claim C10 counterexample: a single-process run with `--global_rank 1`
still calls `wandb.init`, because the init gate uses the local variable
`global_rank` (hard-wired to 0 in non-distributed runs) rather than
`args.global_rank`. -/
theorem wandb_rank_counterexample :
    rankOneArgs.global_rank ≠ 0 ∧
    Event.wandbInit "fed_transformer" ∈ mainTrace rankOneArgs envRank0 := by
  decide

/-- Claim C10 (amended): `wandb.init` is called exactly when the effective
global rank - the `RANK` environment value in distributed runs, literal 0
otherwise - is 0, so a non-distributed run always initializes the tracker
whatever `--global_rank` was parsed; metrics are logged only when
`args.global_rank` (after the distributed overwrite) is 0; in particular a
distributed process with `RANK != 0` makes no tracker call at all. -/
theorem wandb_gating (args : Args) (env : Env) :
    ((mainTrace args env).filter isWandbInit =
      if effectiveGlobalRank args env = 0 then [Event.wandbInit "fed_transformer"]
      else []) ∧
    ((argsAfterDdp args env).global_rank ≠ 0 →
      (mainTrace args env).filter isWandbLog = []) ∧
    (args.is_distributed = 1 → env.rank ≠ 0 →
      (mainTrace args env).filter isWandbCall = []) := by
  refine ⟨?_, fun hgr => ?_, fun hd hr => ?_⟩
  · simp [mainTrace, List.filter_append, filter_ite_list, loop_filter_wandbInit,
      load_cifar_centralized_training_for_vit, create_model, train_and_eval,
      init_ddp, isWandbInit, List.filter]
  · simp [mainTrace, List.filter_append, filter_ite_list, loop_filter_wandbLog,
      load_cifar_centralized_training_for_vit, create_model, train_and_eval,
      init_ddp, isWandbLog, List.filter, hgr]
  · have h1 : effectiveGlobalRank args env ≠ 0 := by
      simpa [effectiveGlobalRank, hd] using hr
    have h2 : (argsAfterDdp args env).global_rank ≠ 0 := by
      simpa [argsAfterDdp, hd] using hr
    simp [mainTrace, List.filter_append, filter_ite_list, loop_filter_wandbCall,
      load_cifar_centralized_training_for_vit, create_model, train_and_eval,
      init_ddp, isWandbCall, List.filter, h1, h2]

/-- Witness for `wandb_gating`: a distributed process with `RANK=3` makes no
tracker call. -/
theorem wandb_gating_witness :
    (mainTrace distArgs envRank3).filter isWandbCall = [] :=
  (wandb_gating distArgs envRank3).2.2 (by decide) (by decide)
